import Mathlib

/-
Verification development for the Discolors browser-extension theme engine.

The definitions below are a shallow embedding of the content script
(content/index.ts) and the shared utilities (shared/utils.ts) of the
repository.  JavaScript numbers appearing in integral positions are
modelled as Nat/Int; the values returned by Math.random() (float64 in
[0, 1)) are modelled as rationals in [0, 1); string manipulation is
modelled on the underlying character lists.
-/

/- ===================== Hex-digit primitives ===================== -/

/-- The 22 ASCII characters accepted as hexadecimal digits: the ten
decimal digits, then the lowercase and the uppercase letters a-f. -/
def hexChars : List Char :=
  (List.range 10).map (fun n => Char.ofNat (48 + n))
    ++ (List.range 6).map (fun n => Char.ofNat (97 + n))
    ++ (List.range 6).map (fun n => Char.ofNat (65 + n))

/-- Whether a character is a hexadecimal digit. -/
def isHexChar (c : Char) : Bool := hexChars.contains c

/-- Numeric value of one hexadecimal digit (0 on any other character;
the claims only use it on hexadecimal digits). -/
def hexCharVal (c : Char) : Nat :=
  if 48 ≤ c.toNat ∧ c.toNat ≤ 57 then c.toNat - 48
  else if 97 ≤ c.toNat ∧ c.toNat ≤ 102 then c.toNat - 87
  else if 65 ≤ c.toNat ∧ c.toNat ≤ 70 then c.toNat - 55
  else 0

/-- Value of a big-endian string of hexadecimal digits.  Models
JavaScript parseInt(s, 16) on all-hex-digit strings (which is the only
way the source calls it on the inputs covered by the claims). -/
def parseHexList (cs : List Char) : Nat :=
  cs.foldl (fun a c => a * 16 + hexCharVal c) 0

/-- Lowercase hexadecimal digit for a value below 16 (the digit
alphabet used by JavaScript Number.prototype.toString(16)). -/
def hexDigitChar (n : Nat) : Char :=
  if n < 10 then Char.ofNat (48 + n)
  else if n < 16 then Char.ofNat (87 + n)
  else '?'

/-- Big-endian base-16 rendering of a natural number, as produced by
JavaScript Number.prototype.toString(16) on a non-negative integer. -/
def toHexList (n : Nat) : List Char :=
  if _h : n < 16 then [hexDigitChar n]
  else toHexList (n / 16) ++ [hexDigitChar (n % 16)]
decreasing_by
  exact Nat.div_lt_self (by omega) (by omega)

/-- Models String.prototype.padStart(len, pad) for a one-character pad
string: left-pads to the requested length (no-op when already long
enough). -/
def jsPadStart (len : Nat) (pad : Char) (cs : List Char) : List Char :=
  List.replicate (len - cs.length) pad ++ cs

/-- Fixed-width big-endian base-16 rendering (helper for reasoning
about padStart-ed toString(16) output). -/
def natToHexFixed : Nat → Nat → List Char
  | 0, _ => []
  | k + 1, n => natToHexFixed k (n / 16) ++ [hexDigitChar (n % 16)]

/-- Math.floor on a non-negative rational, as a natural number. -/
def jsFloorNat (q : ℚ) : ℕ := (⌊q⌋).toNat

/- ===================== Color Math (content/index.ts) ===================== -/

/-- Clamp Math.max(Math.min(255, x), 0) used by adjustColor, as the
resulting channel byte. -/
def clampByte (x : ℤ) : ℕ := (max (min 255 x) 0).toNat

/-- Embedding of adjustColor from content/index.ts (lines 174-188):
strips an optional leading hash, parses the six hex digits, adds
amount to each 8-bit channel, clamps each channel to [0, 255],
recombines the channels with shifts/ors and re-serializes with
toString(16).padStart(6, "0"), restoring the hash if present. -/
def adjustColor (hex : String) (amount : ℤ) : String :=
  let usePound := hex.data.headD ' ' == '#'
  let h := if usePound then hex.data.tail else hex.data
  let num := parseHexList h
  let r : ℤ := max (min 255 (((num >>> 16 : ℕ) : ℤ) + amount)) 0
  let g : ℤ := max (min 255 ((((num >>> 8) &&& 0xff : ℕ) : ℤ) + amount)) 0
  let b : ℤ := max (min 255 (((num &&& 0xff : ℕ) : ℤ) + amount)) 0
  (if usePound then "#" else "")
    ++ String.mk (jsPadStart 6 '0'
        (toHexList ((r.toNat <<< 16) ||| (g.toNat <<< 8) ||| b.toNat)))

/-- Embedding of getTextColor from content/index.ts (lines 197-203):
parses the three channel byte pairs from positions 1-3, 3-5, 5-7 of a
"#RRGGBB" string, computes the luminance, and picks near-black or
near-white.  The JavaScript float64 coefficients 0.299, 0.587, 0.114
are modelled by the exact rationals those decimal literals denote. -/
def getTextColor (hex : String) : String :=
  let r : ℚ := parseHexList ((hex.data.drop 1).take 2)
  let g : ℚ := parseHexList ((hex.data.drop 3).take 2)
  let b : ℚ := parseHexList ((hex.data.drop 5).take 2)
  let luminance : ℚ := 0.299 * r + 0.587 * g + 0.114 * b
  if luminance > 128 then "#000000" else "#ffffff"

/- ===================== shared/utils.ts ===================== -/

/-- Matcher for the regular expression /^(\d+)deg$/ used by
sanitizeGradientDirection: returns the digit group when the whole
string is one or more ASCII digits followed by "deg". -/
def matchDegDigits (s : String) : Option (List Char) :=
  let cs := s.data
  if cs.length ≥ 4 ∧ cs.drop (cs.length - 3) = ['d', 'e', 'g']
      ∧ (cs.take (cs.length - 3)).all Char.isDigit
  then some (cs.take (cs.length - 3))
  else none

/-- Value of a big-endian string of decimal digits; models
parseInt(s, 10) on all-digit strings. -/
def digitsToNat (ds : List Char) : Nat :=
  ds.foldl (fun a c => a * 10 + (c.toNat - 48)) 0

/-- Embedding of sanitizeGradientDirection from shared/utils.ts
(lines 49-61): on a /^(\d+)deg$/ match, clamps the numeric part with
Math.min(360, Math.max(0, n)) and re-serializes; otherwise returns
the safe default "90deg". -/
def sanitizeGradientDirection (direction : String) : String :=
  match matchDegDigits direction with
  | some digits => toString (min 360 (max 0 (digitsToNat digits))) ++ "deg"
  | none => "90deg"

/- ===================== Theme compiler (content/index.ts) ===================== -/

/-- The ThemeConfig record from shared/types.ts. -/
structure ThemeConfig where
  colorCount : Nat
  colors : List String
  gradientDirection : String
  useRandomColors : Bool

/-- CSS class added to the html element to activate the custom theme
(content/index.ts line 151). -/
def THEME_CLASS_NAME : String := "custom-theme-background"

/-- Unique id of the injected style element (content/index.ts
line 148). -/
def STYLE_ELEMENT_ID : String := "discolors-theme-style"

/-- The 24-bit value Math.floor(Math.random() * 16777215) drawn for
one random color in generateThemeCSS (content/index.ts line 219),
where r models the Math.random() result. -/
def randomColorNum (r : ℚ) : ℕ := jsFloorNat (r * 16777215)

/-- One random color string from generateThemeCSS:
"#" + value.toString(16).padStart(6, "0"). -/
def randomHexColorAt (r : ℚ) : String :=
  "#" ++ String.mk (jsPadStart 6 '0' (toHexList (randomColorNum r)))

/-- The integer angle Math.floor(Math.random() * 360) drawn for the
random gradient direction (content/index.ts line 228). -/
def randomDirectionNum (r : ℚ) : ℕ := jsFloorNat (r * 360)

/-- The colorsToUse list computed by generateThemeCSS (content/index.ts
lines 215-223): colorCount fresh random colors when useRandomColors is
set, otherwise config.colors.slice(0, colorCount).  The argument rand
models the stream of Math.random() results consumed by the call. -/
def resolvedColors (rand : Nat → ℚ) (config : ThemeConfig) : List String :=
  if config.useRandomColors then
    (List.range config.colorCount).map (fun i => randomHexColorAt (rand i))
  else
    config.colors.take config.colorCount

/-- The direction computed by generateThemeCSS (content/index.ts lines
227-229): a fresh random angle when useRandomColors is set, otherwise
the sanitized stored direction.  Draw number colorCount is the one
Math.random() call made after the colorCount color draws. -/
def resolvedDirection (rand : Nat → ℚ) (config : ThemeConfig) : String :=
  if config.useRandomColors then
    toString (randomDirectionNum (rand config.colorCount)) ++ "deg"
  else
    sanitizeGradientDirection config.gradientDirection

/-- Models Array.prototype.join(sep): the elements in order with the
separator between consecutive elements (empty string on the empty
list). -/
def joinSep (sep : String) : List String → String
  | [] => ""
  | [x] => x
  | x :: y :: xs => x ++ sep ++ joinSep sep (y :: xs)

/-- The backgroundValue expression of generateThemeCSS (content/index.ts
lines 233-236): a linear-gradient over the joined colors when more than
one color, otherwise the single main color (colorsToUse[0]). -/
def backgroundValue (colors : List String) (direction : String) : String :=
  if colors.length > 1 then
    "linear-gradient(" ++ direction ++ ", " ++ joinSep ", " colors ++ ")"
  else
    colors.headD ""

/-- The template literal returned by generateThemeCSS (content/index.ts
lines 245-258), with the seven interpolated values as parameters.
Literal braces of the CSS text are written with character escapes. -/
def cssTemplate (bg dv dt lv lt ba ta : String) : String :=
  "\n    ." ++ THEME_CLASS_NAME ++ " \x7b\n        "
    ++ ("--custom-theme-background: " ++ bg ++ " !important;") ++ "\n        "
    ++ ("--custom-theme-base-color-dark: " ++ dv ++ " !important;") ++ "\n        "
    ++ ("--custom-theme-text-color-dark: " ++ dt ++ " !important;") ++ "\n        "
    ++ ("--custom-theme-base-color-light: " ++ lv ++ " !important;") ++ "\n        "
    ++ ("--custom-theme-text-color-light: " ++ lt ++ " !important;") ++ "\n        "
    ++ ("--custom-theme-base-color-amount: " ++ ba ++ "%;") ++ "\n        "
    ++ ("--custom-theme-text-color-amount: " ++ ta ++ "%;")
    ++ "\n    \x7d\n    body \x7b \n      background: var(--custom-theme-background); \n    \x7d\n  "

/-- Embedding of generateThemeCSS from content/index.ts
(lines 211-259).  isDark stands for detectThemeMode() === "dark" (a
point-in-time read of the document root class list); rand models the
stream of Math.random() results.  The numeric mix amounts 70.4 / 15.2
and 30 / 40 are represented by the decimal strings their template
interpolation produces. -/
def generateThemeCSS (rand : Nat → ℚ) (isDark : Bool) (config : ThemeConfig) : String :=
  let colorsToUse := resolvedColors rand config
  if colorsToUse.length = 0 then "" else
  let direction := resolvedDirection rand config
  let mainColor := colorsToUse.headD ""
  let bg := backgroundValue colorsToUse direction
  let darkVariant := adjustColor mainColor (-35)
  let lightVariant := adjustColor mainColor 130
  let darkTextColor := getTextColor darkVariant
  let lightTextColor := getTextColor lightVariant
  let baseColorAmount := if isDark then "70.4" else "15.2"
  let textColorAmount := if isDark then "30" else "40"
  cssTemplate bg darkVariant darkTextColor lightVariant lightTextColor
    baseColorAmount textColorAmount

/- ===================== Persistence watcher (content/index.ts) ===================== -/

/-- The document state observed and mutated by the persistence
watcher: the class list of the document root, and the text of the
engine's style element when it is present in the document. -/
structure DomState where
  rootClasses : List String
  styleText : Option String
deriving DecidableEq

/-- DOMTokenList.add: appends the token unless already present. -/
def classListAdd (l : List String) (c : String) : List String :=
  if l.contains c then l else l ++ [c]

/-- Embedding of the MutationObserver callback installed by
initializePersistenceObserver (content/index.ts lines 304-319): when
the activation class is missing from the root while the style element
is still in the document, the class is re-added; in every other case
the callback does nothing. -/
def observerCallback (s : DomState) : DomState :=
  if !(s.rootClasses.contains THEME_CLASS_NAME) && s.styleText.isSome then
    { s with rootClasses := classListAdd s.rootClasses THEME_CLASS_NAME }
  else
    s

/-- Substring containment for strings (t contains s). -/
def strContains (t s : String) : Prop := ∃ p q, t = p ++ s ++ q

/- ===================== Helper lemmas: hex digits ===================== -/

theorem hexCharVal_lt_16 : ∀ c ∈ hexChars, hexCharVal c < 16 := by decide

theorem hexVal_hexDigitChar : ∀ m, m < 16 → hexCharVal (hexDigitChar m) = m := by decide

theorem hexDigitChar_mem : ∀ m, m < 16 → hexDigitChar m ∈ hexChars := by decide

theorem hexDigitChar_toLower : ∀ c ∈ hexChars, hexDigitChar (hexCharVal c) = c.toLower := by
  decide

theorem mem_of_isHexChar {c : Char} (h : isHexChar c = true) : c ∈ hexChars := by
  simpa [isHexChar, List.contains, List.elem_eq_mem] using h

theorem isHexChar_of_mem {c : Char} (h : c ∈ hexChars) : isHexChar c = true := by
  simpa [isHexChar, List.contains, List.elem_eq_mem] using h

theorem isHexChar_ne_hash {c : Char} (h : isHexChar c = true) : (c == '#') = false := by
  have hm : c ∈ hexChars := mem_of_isHexChar h
  have : ∀ x ∈ hexChars, (x == '#') = false := by decide
  exact this c hm

theorem parseHexList_snoc (xs : List Char) (c : Char) :
    parseHexList (xs ++ [c]) = parseHexList xs * 16 + hexCharVal c := by
  simp [parseHexList, List.foldl_append]

theorem parseHexList_lt (ds : List Char) (h : ∀ c ∈ ds, isHexChar c = true) :
    parseHexList ds < 16 ^ ds.length := by
  induction ds using List.reverseRecOn with
  | nil => simp [parseHexList]
  | append_singleton xs c ih =>
    have hx : ∀ d ∈ xs, isHexChar d = true := fun d hd => h d (by simp [hd])
    have hc : hexCharVal c < 16 :=
      hexCharVal_lt_16 c (mem_of_isHexChar (h c (by simp)))
    have hlt := ih hx
    rw [parseHexList_snoc]
    simp only [List.length_append, List.length_singleton]
    have : 16 ^ (xs.length + 1) = 16 ^ xs.length * 16 := by ring
    omega

theorem natToHexFixed_zero (k : Nat) : natToHexFixed k 0 = List.replicate k '0' := by
  induction k with
  | zero => rfl
  | succ k ih =>
    show natToHexFixed k (0 / 16) ++ [hexDigitChar (0 % 16)] = _
    rw [Nat.zero_div, ih, List.replicate_succ']
    rfl

theorem natToHexFixed_length (k n : Nat) : (natToHexFixed k n).length = k := by
  induction k generalizing n with
  | zero => rfl
  | succ k ih => simp [natToHexFixed, ih]

theorem natToHexFixed_parse (k n : Nat) (h : n < 16 ^ k) :
    parseHexList (natToHexFixed k n) = n := by
  induction k generalizing n with
  | zero =>
    simp only [pow_zero] at h
    interval_cases n
    rfl
  | succ k ih =>
    show parseHexList (natToHexFixed k (n / 16) ++ [hexDigitChar (n % 16)]) = n
    rw [parseHexList_snoc, ih (n / 16) (by
      have : 16 ^ (k + 1) = 16 ^ k * 16 := by ring
      omega), hexVal_hexDigitChar (n % 16) (by omega)]
    omega

theorem natToHexFixed_all_hex (k n : Nat) :
    ∀ c ∈ natToHexFixed k n, isHexChar c = true := by
  induction k generalizing n with
  | zero => simp [natToHexFixed]
  | succ k ih =>
    intro c hc
    rw [show natToHexFixed (k + 1) n
          = natToHexFixed k (n / 16) ++ [hexDigitChar (n % 16)] from rfl] at hc
    rcases List.mem_append.mp hc with h | h
    · exact ih (n / 16) c h
    · rcases List.mem_singleton.mp h with rfl
      exact isHexChar_of_mem (hexDigitChar_mem (n % 16) (by omega))

theorem toHexList_length_le (k : Nat) :
    ∀ n, 1 ≤ k → n < 16 ^ k → (toHexList n).length ≤ k := by
  induction k with
  | zero => intro n hk h; omega
  | succ k ih =>
    intro n _hk h
    by_cases hn : n < 16
    · rw [toHexList, dif_pos hn, List.length_singleton]
      omega
    · rw [toHexList, dif_neg hn]
      have hk1 : 1 ≤ k := by
        rcases Nat.eq_zero_or_pos k with rfl | h1
        · norm_num at h; omega
        · exact h1
      have hd : n / 16 < 16 ^ k := by
        rw [Nat.div_lt_iff_lt_mul (by omega)]
        calc n < 16 ^ (k + 1) := h
        _ = 16 ^ k * 16 := by ring
      have := ih (n / 16) hk1 hd
      rw [List.length_append, List.length_singleton]
      omega

theorem jsPadStart_toHexList (k : Nat) :
    ∀ n, 1 ≤ k → n < 16 ^ k → jsPadStart k '0' (toHexList n) = natToHexFixed k n := by
  induction k with
  | zero => intro n hk _h; omega
  | succ k ih =>
    intro n _hk h
    by_cases hn : n < 16
    · rw [toHexList, dif_pos hn]
      have h16 : n / 16 = 0 := by omega
      have hmod : n % 16 = n := by omega
      rw [jsPadStart, List.length_singleton,
        show natToHexFixed (k + 1) n
          = natToHexFixed k (n / 16) ++ [hexDigitChar (n % 16)] from rfl,
        h16, hmod, natToHexFixed_zero]
      simp
    · rw [toHexList, dif_neg hn]
      have hk1 : 1 ≤ k := by
        rcases Nat.eq_zero_or_pos k with rfl | h1
        · norm_num at h; omega
        · exact h1
      have hd : n / 16 < 16 ^ k := by
        rw [Nat.div_lt_iff_lt_mul (by omega)]
        calc n < 16 ^ (k + 1) := h
        _ = 16 ^ k * 16 := by ring
      have hlen : (toHexList (n / 16)).length ≤ k := toHexList_length_le k (n / 16) hk1 hd
      have hpad := ih (n / 16) hk1 hd
      rw [jsPadStart, List.length_append, List.length_singleton,
        show natToHexFixed (k + 1) n
          = natToHexFixed k (n / 16) ++ [hexDigitChar (n % 16)] from rfl,
        ← hpad, jsPadStart]
      have harith : k + 1 - ((toHexList (n / 16)).length + 1)
          = k - (toHexList (n / 16)).length := by omega
      rw [harith, List.append_assoc]

theorem natToHexFixed_parse_map (ds : List Char) (h : ∀ c ∈ ds, isHexChar c = true) :
    natToHexFixed ds.length (parseHexList ds) = ds.map Char.toLower := by
  induction ds using List.reverseRecOn with
  | nil => rfl
  | append_singleton xs c ih =>
    have hx : ∀ d ∈ xs, isHexChar d = true := fun d hd => h d (by simp [hd])
    have hcm : c ∈ hexChars := mem_of_isHexChar (h c (by simp))
    have hc : hexCharVal c < 16 := hexCharVal_lt_16 c hcm
    rw [parseHexList_snoc, List.length_append, List.length_singleton,
      show natToHexFixed (xs.length + 1) (parseHexList xs * 16 + hexCharVal c)
        = natToHexFixed xs.length ((parseHexList xs * 16 + hexCharVal c) / 16)
          ++ [hexDigitChar ((parseHexList xs * 16 + hexCharVal c) % 16)] from rfl]
    have hdiv : (parseHexList xs * 16 + hexCharVal c) / 16 = parseHexList xs := by omega
    have hmod : (parseHexList xs * 16 + hexCharVal c) % 16 = hexCharVal c := by omega
    rw [hdiv, hmod, ih hx, hexDigitChar_toLower c hcm]
    simp

/- ===================== Helper lemmas: bit-level bridges ===================== -/

theorem shiftRight16_eq (n : ℕ) : n >>> 16 = n / 65536 := by
  rw [Nat.shiftRight_eq_div_pow]

theorem shiftRight8_eq (n : ℕ) : n >>> 8 = n / 256 := by
  rw [Nat.shiftRight_eq_div_pow]

theorem land255_eq (n : ℕ) : n &&& 255 = n % 256 := by
  have := Nat.and_pow_two_sub_one_eq_mod n 8
  norm_num at this
  exact this

theorem compose_channels (r g b : ℕ) (hg : g ≤ 255) (hb : b ≤ 255) :
    (r <<< 16) ||| (g <<< 8) ||| b = r * 65536 + g * 256 + b := by
  have h1 : r <<< 16 = r * 65536 := by rw [Nat.shiftLeft_eq]
  have h2 : g <<< 8 = g * 256 := by rw [Nat.shiftLeft_eq]
  have h3 : (r <<< 16) ||| (g <<< 8) = r * 65536 + g * 256 := by
    rw [h1, h2]
    have key := Nat.mul_add_lt_is_or (b := g * 256) (i := 16) (by omega) r
    have e1 : 2 ^ 16 * r = r * 65536 := by ring
    rw [e1] at key
    exact key.symm
  rw [h3]
  have key := Nat.mul_add_lt_is_or (b := b) (i := 8) (by omega) (r * 256 + g)
  have e2 : 2 ^ 8 * (r * 256 + g) = r * 65536 + g * 256 := by ring
  rw [e2] at key
  exact key.symm

theorem string_mk_append (xs ys : List Char) :
    String.mk xs ++ String.mk ys = String.mk (xs ++ ys) := rfl

def adjustedVal (num : ℕ) (a : ℤ) : ℕ :=
  clampByte (((num >>> 16 : ℕ) : ℤ) + a) * 65536
  + clampByte ((((num >>> 8) &&& 255 : ℕ) : ℤ) + a) * 256
  + clampByte (((num &&& 255 : ℕ) : ℤ) + a)

theorem clampByte_le (x : ℤ) : clampByte x ≤ 255 := by
  simp only [clampByte]
  omega

theorem adjustedVal_lt (num : ℕ) (a : ℤ) : adjustedVal num a < 16 ^ 6 := by
  have h1 := clampByte_le (((num >>> 16 : ℕ) : ℤ) + a)
  have h2 := clampByte_le ((((num >>> 8) &&& 255 : ℕ) : ℤ) + a)
  have h3 := clampByte_le (((num &&& 255 : ℕ) : ℤ) + a)
  simp only [adjustedVal]
  norm_num
  omega

theorem adjustColor_noPound (h6 : List Char) (a : ℤ)
    (hlen : h6.length = 6) (hhex : ∀ c ∈ h6, isHexChar c = true) :
    adjustColor (String.mk h6) a
      = String.mk (natToHexFixed 6 (adjustedVal (parseHexList h6) a)) := by
  rcases h6 with _ | ⟨c, rest⟩
  · simp at hlen
  · have hne : (c == '#') = false := isHexChar_ne_hash (hhex c (by simp))
    simp only [adjustColor, List.headD, hne, if_false, Bool.false_eq_true]
    have hfold : ∀ x : ℤ, (255 ⊓ x ⊔ 0).toNat = clampByte x := fun _ => rfl
    rw [hfold, hfold, hfold, compose_channels _ _ _ (clampByte_le _) (clampByte_le _)]
    rw [show clampByte (((parseHexList (c :: rest) >>> 16 : ℕ) : ℤ) + a) * 65536
          + clampByte ((((parseHexList (c :: rest) >>> 8) &&& 255 : ℕ) : ℤ) + a) * 256
          + clampByte (((parseHexList (c :: rest) &&& 255 : ℕ) : ℤ) + a)
        = adjustedVal (parseHexList (c :: rest)) a from rfl]
    rw [jsPadStart_toHexList 6 _ (by norm_num) (adjustedVal_lt _ a)]
    rfl

theorem adjustColor_pound (h6 : List Char) (a : ℤ) :
    adjustColor (String.mk ('#' :: h6)) a
      = "#" ++ String.mk (natToHexFixed 6 (adjustedVal (parseHexList h6) a)) := by
  simp only [adjustColor, List.headD, List.tail_cons, beq_self_eq_true, if_true]
  have hfold : ∀ x : ℤ, (255 ⊓ x ⊔ 0).toNat = clampByte x := fun _ => rfl
  rw [hfold, hfold, hfold, compose_channels _ _ _ (clampByte_le _) (clampByte_le _)]
  rw [show clampByte (((parseHexList h6 >>> 16 : ℕ) : ℤ) + a) * 65536
        + clampByte ((((parseHexList h6 >>> 8) &&& 255 : ℕ) : ℤ) + a) * 256
        + clampByte (((parseHexList h6 &&& 255 : ℕ) : ℤ) + a)
      = adjustedVal (parseHexList h6) a from rfl]
  rw [jsPadStart_toHexList 6 _ (by norm_num) (adjustedVal_lt _ a)]

def hexChannels (ds : List Char) : ℕ × ℕ × ℕ :=
  (parseHexList ds >>> 16, (parseHexList ds >>> 8) &&& 255, parseHexList ds &&& 255)

theorem adjustColor_spec (h6 : List Char) (a : ℤ) (pound : Bool) (r g b : ℕ)
    (hlen : h6.length = 6) (hhex : ∀ c ∈ h6, isHexChar c = true)
    (hch : hexChannels h6 = (r, g, b)) :
    ∃ o6 : List Char,
      adjustColor ((if pound then "#" else "") ++ String.mk h6) a
        = (if pound then "#" else "") ++ String.mk o6
      ∧ o6.length = 6
      ∧ (∀ c ∈ o6, isHexChar c = true)
      ∧ hexChannels o6
          = (clampByte ((r : ℤ) + a), clampByte ((g : ℤ) + a), clampByte ((b : ℤ) + a)) := by
  obtain ⟨hr, hg, hb⟩ :
      parseHexList h6 >>> 16 = r
        ∧ (parseHexList h6 >>> 8) &&& 255 = g ∧ parseHexList h6 &&& 255 = b := by
    simpa [hexChannels, Prod.ext_iff] using hch
  subst hr hg hb
  refine ⟨natToHexFixed 6 (adjustedVal (parseHexList h6) a), ?_, natToHexFixed_length 6 _,
    natToHexFixed_all_hex 6 _, ?_⟩
  · cases pound
    · exact adjustColor_noPound h6 a hlen hhex
    · exact adjustColor_pound h6 a
  · have hparse : parseHexList (natToHexFixed 6 (adjustedVal (parseHexList h6) a))
        = adjustedVal (parseHexList h6) a := natToHexFixed_parse 6 _ (adjustedVal_lt _ a)
    have h1 := clampByte_le (((parseHexList h6 >>> 16 : ℕ) : ℤ) + a)
    have h2 := clampByte_le ((((parseHexList h6 >>> 8) &&& 255 : ℕ) : ℤ) + a)
    have h3 := clampByte_le (((parseHexList h6 &&& 255 : ℕ) : ℤ) + a)
    simp only [hexChannels, Prod.mk.injEq]
    rw [hparse]
    simp only [adjustedVal, shiftRight16_eq, shiftRight8_eq, land255_eq] at h1 h2 h3 ⊢
    refine ⟨?_, ?_, ?_⟩ <;> omega

theorem clampByte_coe (x : ℕ) (h : x ≤ 255) : clampByte ((x : ℤ)) = x := by
  simp only [clampByte]
  omega

theorem adjustedVal_zero (num : ℕ) (h : num < 16 ^ 6) : adjustedVal num 0 = num := by
  simp only [adjustedVal, shiftRight16_eq, shiftRight8_eq, land255_eq, add_zero]
  rw [clampByte_coe _ (by omega), clampByte_coe _ (by omega), clampByte_coe _ (by omega)]
  omega

def stripHash (cs : List Char) : List Char :=
  if cs.headD ' ' == '#' then cs.tail else cs

def validHexColor (s : String) : Bool :=
  ((stripHash s.data).length == 6) && (stripHash s.data).all isHexChar

theorem adjustColor_zero_core (s : String) (h : validHexColor s = true) :
    adjustColor s 0 = String.mk (s.data.map Char.toLower) := by
  obtain ⟨cs⟩ := s
  by_cases hh : (cs.headD ' ' == '#') = true
  · rcases cs with _ | ⟨c, t⟩
    · simp at hh
    · simp only [List.headD] at hh
      have hc : c = '#' := by simpa using hh
      subst hc
      have hlen : t.length = 6 := by
        simp only [validHexColor, stripHash, List.headD, List.tail_cons] at h
        simp at h
        exact h.1
      have hhex : ∀ c ∈ t, isHexChar c = true := by
        simp only [validHexColor, stripHash, List.headD, List.tail_cons] at h
        simp at h
        exact h.2
      have hnum : parseHexList t < 16 ^ 6 := hlen ▸ parseHexList_lt t hhex
      rw [adjustColor_pound t 0, adjustedVal_zero _ hnum, ← hlen,
        natToHexFixed_parse_map t hhex]
      rw [show ("#" : String) = String.mk ['#'] from rfl, string_mk_append]
      rw [show ('#' :: t).map Char.toLower = '#' :: t.map Char.toLower by simp]
      rfl
  · have hstrip : stripHash cs = cs := by
      simp only [stripHash]
      rw [if_neg hh]
    have hlen : cs.length = 6 := by
      simp only [validHexColor, hstrip] at h
      simp at h
      exact h.1
    have hhex : ∀ c ∈ cs, isHexChar c = true := by
      simp only [validHexColor, hstrip] at h
      simp at h
      exact h.2
    have hnum : parseHexList cs < 16 ^ 6 := hlen ▸ parseHexList_lt cs hhex
    rw [adjustColor_noPound cs 0 hlen hhex, adjustedVal_zero _ hnum, ← hlen,
      natToHexFixed_parse_map cs hhex]

/- ===================== Helper lemmas: strings and the template ===================== -/

theorem string_data_append (s t : String) : (s ++ t).data = s.data ++ t.data := rfl

theorem string_eq_of_data (s t : String) (h : s.data = t.data) : s = t := by
  cases s
  cases t
  exact congrArg String.mk h

theorem cssTemplate_contains_bg (bg dv dt lv lt ba ta : String) :
    strContains (cssTemplate bg dv dt lv lt ba ta)
      ("--custom-theme-background: " ++ bg ++ " !important;") := by
  refine ⟨"\n    ." ++ THEME_CLASS_NAME ++ " \x7b\n        ",
    "\n        "
      ++ ("--custom-theme-base-color-dark: " ++ dv ++ " !important;") ++ "\n        "
      ++ ("--custom-theme-text-color-dark: " ++ dt ++ " !important;") ++ "\n        "
      ++ ("--custom-theme-base-color-light: " ++ lv ++ " !important;") ++ "\n        "
      ++ ("--custom-theme-text-color-light: " ++ lt ++ " !important;") ++ "\n        "
      ++ ("--custom-theme-base-color-amount: " ++ ba ++ "%;") ++ "\n        "
      ++ ("--custom-theme-text-color-amount: " ++ ta ++ "%;")
      ++ "\n    \x7d\n    body \x7b \n      background: var(--custom-theme-background); \n    \x7d\n  ", ?_⟩
  apply string_eq_of_data
  simp only [cssTemplate, string_data_append, List.append_assoc]

theorem cssTemplate_contains_dv (bg dv dt lv lt ba ta : String) :
    strContains (cssTemplate bg dv dt lv lt ba ta)
      ("--custom-theme-base-color-dark: " ++ dv ++ " !important;") := by
  refine ⟨"\n    ." ++ THEME_CLASS_NAME ++ " \x7b\n        "
      ++ ("--custom-theme-background: " ++ bg ++ " !important;") ++ "\n        ",
    "\n        "
      ++ ("--custom-theme-text-color-dark: " ++ dt ++ " !important;") ++ "\n        "
      ++ ("--custom-theme-base-color-light: " ++ lv ++ " !important;") ++ "\n        "
      ++ ("--custom-theme-text-color-light: " ++ lt ++ " !important;") ++ "\n        "
      ++ ("--custom-theme-base-color-amount: " ++ ba ++ "%;") ++ "\n        "
      ++ ("--custom-theme-text-color-amount: " ++ ta ++ "%;")
      ++ "\n    \x7d\n    body \x7b \n      background: var(--custom-theme-background); \n    \x7d\n  ", ?_⟩
  apply string_eq_of_data
  simp only [cssTemplate, string_data_append, List.append_assoc]

theorem cssTemplate_contains_lv (bg dv dt lv lt ba ta : String) :
    strContains (cssTemplate bg dv dt lv lt ba ta)
      ("--custom-theme-base-color-light: " ++ lv ++ " !important;") := by
  refine ⟨"\n    ." ++ THEME_CLASS_NAME ++ " \x7b\n        "
      ++ ("--custom-theme-background: " ++ bg ++ " !important;") ++ "\n        "
      ++ ("--custom-theme-base-color-dark: " ++ dv ++ " !important;") ++ "\n        "
      ++ ("--custom-theme-text-color-dark: " ++ dt ++ " !important;") ++ "\n        ",
    "\n        "
      ++ ("--custom-theme-text-color-light: " ++ lt ++ " !important;") ++ "\n        "
      ++ ("--custom-theme-base-color-amount: " ++ ba ++ "%;") ++ "\n        "
      ++ ("--custom-theme-text-color-amount: " ++ ta ++ "%;")
      ++ "\n    \x7d\n    body \x7b \n      background: var(--custom-theme-background); \n    \x7d\n  ", ?_⟩
  apply string_eq_of_data
  simp only [cssTemplate, string_data_append, List.append_assoc]

theorem cssTemplate_contains_ba (bg dv dt lv lt ba ta : String) :
    strContains (cssTemplate bg dv dt lv lt ba ta)
      ("--custom-theme-base-color-amount: " ++ ba ++ "%;") := by
  refine ⟨"\n    ." ++ THEME_CLASS_NAME ++ " \x7b\n        "
      ++ ("--custom-theme-background: " ++ bg ++ " !important;") ++ "\n        "
      ++ ("--custom-theme-base-color-dark: " ++ dv ++ " !important;") ++ "\n        "
      ++ ("--custom-theme-text-color-dark: " ++ dt ++ " !important;") ++ "\n        "
      ++ ("--custom-theme-base-color-light: " ++ lv ++ " !important;") ++ "\n        "
      ++ ("--custom-theme-text-color-light: " ++ lt ++ " !important;") ++ "\n        ",
    "\n        "
      ++ ("--custom-theme-text-color-amount: " ++ ta ++ "%;")
      ++ "\n    \x7d\n    body \x7b \n      background: var(--custom-theme-background); \n    \x7d\n  ", ?_⟩
  apply string_eq_of_data
  simp only [cssTemplate, string_data_append, List.append_assoc]

theorem cssTemplate_contains_ta (bg dv dt lv lt ba ta : String) :
    strContains (cssTemplate bg dv dt lv lt ba ta)
      ("--custom-theme-text-color-amount: " ++ ta ++ "%;") := by
  refine ⟨"\n    ." ++ THEME_CLASS_NAME ++ " \x7b\n        "
      ++ ("--custom-theme-background: " ++ bg ++ " !important;") ++ "\n        "
      ++ ("--custom-theme-base-color-dark: " ++ dv ++ " !important;") ++ "\n        "
      ++ ("--custom-theme-text-color-dark: " ++ dt ++ " !important;") ++ "\n        "
      ++ ("--custom-theme-base-color-light: " ++ lv ++ " !important;") ++ "\n        "
      ++ ("--custom-theme-text-color-light: " ++ lt ++ " !important;") ++ "\n        "
      ++ ("--custom-theme-base-color-amount: " ++ ba ++ "%;") ++ "\n        ",
    "\n    \x7d\n    body \x7b \n      background: var(--custom-theme-background); \n    \x7d\n  ", ?_⟩
  apply string_eq_of_data
  simp only [cssTemplate, string_data_append, List.append_assoc]

theorem generateThemeCSS_eq (rand : Nat → ℚ) (isDark : Bool) (cfg : ThemeConfig)
    (h : resolvedColors rand cfg ≠ []) :
    generateThemeCSS rand isDark cfg
      = cssTemplate
          (backgroundValue (resolvedColors rand cfg) (resolvedDirection rand cfg))
          (adjustColor ((resolvedColors rand cfg).headD "") (-35))
          (getTextColor (adjustColor ((resolvedColors rand cfg).headD "") (-35)))
          (adjustColor ((resolvedColors rand cfg).headD "") 130)
          (getTextColor (adjustColor ((resolvedColors rand cfg).headD "") 130))
          (if isDark then "70.4" else "15.2")
          (if isDark then "30" else "40") := by
  have hlen : (resolvedColors rand cfg).length ≠ 0 := by
    simpa [List.length_eq_zero] using h
  simp only [generateThemeCSS]
  rw [if_neg hlen]

/- ===================== Helper lemmas: getTextColor ===================== -/

set_option maxRecDepth 4000 in
theorem getTextColor_eq (d0 d1 d2 d3 d4 d5 : Char)
    (h : ∀ c ∈ [d0, d1, d2, d3, d4, d5], isHexChar c = true) :
    getTextColor (String.mk ['#', d0, d1, d2, d3, d4, d5])
      = if (128 : ℚ)
            < (0.299 : ℚ) * ((parseHexList [d0, d1, d2, d3, d4, d5] >>> 16 : ℕ) : ℚ)
              + (0.587 : ℚ) * (((parseHexList [d0, d1, d2, d3, d4, d5] >>> 8) &&& 255 : ℕ) : ℚ)
              + (0.114 : ℚ) * ((parseHexList [d0, d1, d2, d3, d4, d5] &&& 255 : ℕ) : ℚ)
        then "#000000" else "#ffffff" := by
  have b0 := hexCharVal_lt_16 d0 (mem_of_isHexChar (h d0 (by simp)))
  have b1 := hexCharVal_lt_16 d1 (mem_of_isHexChar (h d1 (by simp)))
  have b2 := hexCharVal_lt_16 d2 (mem_of_isHexChar (h d2 (by simp)))
  have b3 := hexCharVal_lt_16 d3 (mem_of_isHexChar (h d3 (by simp)))
  have b4 := hexCharVal_lt_16 d4 (mem_of_isHexChar (h d4 (by simp)))
  have b5 := hexCharVal_lt_16 d5 (mem_of_isHexChar (h d5 (by simp)))
  have e1 : parseHexList [d0, d1] = parseHexList [d0, d1, d2, d3, d4, d5] >>> 16 := by
    simp only [parseHexList, List.foldl, shiftRight16_eq]
    omega
  have e2 : parseHexList [d2, d3]
      = (parseHexList [d0, d1, d2, d3, d4, d5] >>> 8) &&& 255 := by
    simp only [parseHexList, List.foldl, shiftRight8_eq, land255_eq]
    omega
  have e3 : parseHexList [d4, d5] = parseHexList [d0, d1, d2, d3, d4, d5] &&& 255 := by
    simp only [parseHexList, List.foldl, land255_eq]
    omega
  simp only [getTextColor, List.drop_succ_cons, List.drop_zero, List.take_succ_cons,
    List.take_zero]
  simp only [e1, e2, e3]

/- ===================== Helper lemmas: degree sanitizer ===================== -/

theorem matchDeg_of_digits (ds : List Char) (hne : ds ≠ [])
    (hd : ∀ c ∈ ds, c.isDigit = true) :
    matchDegDigits (String.mk ds ++ "deg") = some ds := by
  have hdata : (String.mk ds ++ "deg").data = ds ++ ['d', 'e', 'g'] := rfl
  have hlen : (ds ++ ['d', 'e', 'g']).length = ds.length + 3 := by simp
  have hidx : (ds ++ ['d', 'e', 'g']).length - 3 = ds.length := by omega
  have hge : (ds ++ ['d', 'e', 'g']).length ≥ 4 := by
    rcases ds with _ | ⟨c, t⟩
    · exact absurd rfl hne
    · simp only [List.length_append, List.length_cons]
      omega
  simp only [matchDegDigits, hdata, hidx, List.drop_left, List.take_left]
  rw [if_pos ⟨hge, trivial, by simpa using hd⟩]

theorem matchDeg_some_inv (s : String) (ds : List Char)
    (h : matchDegDigits s = some ds) :
    ds ≠ [] ∧ (∀ c ∈ ds, c.isDigit = true) ∧ s = String.mk ds ++ "deg" := by
  obtain ⟨cs⟩ := s
  simp only [matchDegDigits] at h
  split at h
  case isTrue hc =>
    obtain ⟨hge, hdrop, hall⟩ := hc
    obtain ⟨rfl⟩ : cs.take (cs.length - 3) = ds := by simpa using h
    refine ⟨?_, by simpa using hall, ?_⟩
    · have : (cs.take (cs.length - 3)).length = cs.length - 3 := by
        rw [List.length_take]
        omega
      intro hnil
      rw [hnil] at this
      simp at this
      omega
    · apply string_eq_of_data
      rw [string_data_append]
      show cs = cs.take (cs.length - 3) ++ ['d', 'e', 'g']
      rw [← hdrop, List.take_append_drop]
  case isFalse => exact absurd h (by simp)

/- ===================== Helper lemmas: random draws ===================== -/

theorem jsFloorNat_eq_iff (q : ℚ) (k : ℕ) (h0 : 0 ≤ q) :
    jsFloorNat q = k ↔ (k : ℚ) ≤ q ∧ q < (k : ℚ) + 1 := by
  unfold jsFloorNat
  have hfl : 0 ≤ ⌊q⌋ := Int.floor_nonneg.mpr h0
  constructor
  · intro hk
    have hz : ⌊q⌋ = (k : ℤ) := by omega
    have := Int.floor_eq_iff.mp hz
    constructor
    · exact_mod_cast this.1
    · exact_mod_cast this.2
  · rintro ⟨h1, h2⟩
    have hz : ⌊q⌋ = (k : ℤ) := by
      rw [Int.floor_eq_iff]
      constructor
      · exact_mod_cast h1
      · push_cast
        exact h2
    omega

theorem randomColorNum_eq_iff (rq : ℚ) (k : ℕ) (h0 : 0 ≤ rq) :
    randomColorNum rq = k
      ↔ ((k : ℚ) / 16777215 ≤ rq ∧ rq < ((k : ℚ) + 1) / 16777215) := by
  have h15 : (0 : ℚ) < 16777215 := by norm_num
  unfold randomColorNum
  rw [jsFloorNat_eq_iff _ _ (by positivity), div_le_iff₀ h15, lt_div_iff₀ h15]

theorem randomDirectionNum_eq_iff (rq : ℚ) (k : ℕ) (h0 : 0 ≤ rq) :
    randomDirectionNum rq = k
      ↔ ((k : ℚ) / 360 ≤ rq ∧ rq < ((k : ℚ) + 1) / 360) := by
  have h36 : (0 : ℚ) < 360 := by norm_num
  unfold randomDirectionNum
  rw [jsFloorNat_eq_iff _ _ (by positivity), div_le_iff₀ h36, lt_div_iff₀ h36]

theorem randomColorNum_le (rq : ℚ) (_h0 : 0 ≤ rq) (h1 : rq < 1) :
    randomColorNum rq ≤ 16777214 := by
  unfold randomColorNum jsFloorNat
  have hmul : rq * 16777215 < 16777215 := by nlinarith
  have hfl : ⌊rq * 16777215⌋ < (16777215 : ℤ) := Int.floor_lt.mpr (by exact_mod_cast hmul)
  omega

theorem randomDirectionNum_le (rq : ℚ) (_h0 : 0 ≤ rq) (h1 : rq < 1) :
    randomDirectionNum rq ≤ 359 := by
  unfold randomDirectionNum jsFloorNat
  have hmul : rq * 360 < 360 := by nlinarith
  have hfl : ⌊rq * 360⌋ < (360 : ℤ) := Int.floor_lt.mpr (by exact_mod_cast hmul)
  omega

/-- The properties of one random draw pair that the corrected claim C2
asserts: the color value is uniform on [0, 0xFFFFFE] (each value is hit
by an equal-width interval of Math.random() results, and 0xFFFFFF by
none), the angle is uniform on [0, 359], and the color serializes as
"#" followed by six hexadecimal digits. -/
def randomResolverSpec (rq : ℚ) : Prop :=
  (randomColorNum rq ≤ 16777214 ∧ randomDirectionNum rq ≤ 359)
  ∧ (∀ k : ℕ, randomColorNum rq = k
      ↔ ((k : ℚ) / 16777215 ≤ rq ∧ rq < ((k : ℚ) + 1) / 16777215))
  ∧ (∀ k : ℕ, randomDirectionNum rq = k
      ↔ ((k : ℚ) / 360 ≤ rq ∧ rq < ((k : ℚ) + 1) / 360))
  ∧ ∃ o6 : List Char, randomHexColorAt rq = "#" ++ String.mk o6
      ∧ o6.length = 6 ∧ ∀ c ∈ o6, isHexChar c = true

/- ===================== Claim theorems ===================== -/

/-- C1 counterexample: at the concrete document state in which both the
activation class and the engine's style element have been removed, one
mutation callback of the persistence watcher restores neither of them,
contradicting the claim that the callback re-invokes the DOM applier so
that both the class and the style element are restored. -/
theorem c1_counterexample :
    ¬ (((observerCallback ⟨[], none⟩).rootClasses.contains THEME_CLASS_NAME = true)
        ∧ (observerCallback ⟨[], none⟩).styleText.isSome = true) := by
  decide

/-- C1 (amended): every mutation callback of the persistence watcher
leaves the style element and its text exactly as they were, and after
the callback the activation class is present if and only if it was
already present or the style element is present in the document; in
particular the callback re-adds the class exactly when the class is
missing while the style element survives, and it never restores a
missing style element nor rewrites the style text (so the style text
trivially stays the last applied CSS text). -/
theorem c1_watcher_class_only (s : DomState) :
    (observerCallback s).styleText = s.styleText
    ∧ ((observerCallback s).rootClasses.contains THEME_CLASS_NAME
        = (s.rootClasses.contains THEME_CLASS_NAME || s.styleText.isSome)) := by
  unfold observerCallback
  by_cases hm : THEME_CLASS_NAME ∈ s.rootClasses
  · simp [hm]
  · by_cases hs : s.styleText.isSome = true
    · simp [hm, hs, classListAdd]
    · simp [hm, hs]

/-- C2 counterexample: no Math.random() result in [0, 1) produces the
color value 0xFFFFFF = 16777215 (the code multiplies by 16777215
instead of 16777216), so not every 24-bit value is possible and the
colors are not uniform over the full 24-bit range. -/
theorem c2_counterexample :
    ¬ ∃ rq : ℚ, 0 ≤ rq ∧ rq < 1 ∧ randomColorNum rq = 16777215 := by
  rintro ⟨rq, h0, h1, he⟩
  have := randomColorNum_le rq h0 h1
  omega

/-- C2 (amended): for every Math.random() result in [0, 1), the random
color value is an integer in [0x000000, 0xFFFFFE] — uniformly
distributed over that range, in that each value is hit by exactly the
results in an interval of width 1/16777215, while 0xFFFFFF is hit by
none — the color serializes as "#" plus six hexadecimal digits, and
the independently drawn angle is a uniform integer in [0, 360). -/
theorem c2_random_palette (rq : ℚ) (h0 : 0 ≤ rq) (h1 : rq < 1) :
    randomResolverSpec rq := by
  refine ⟨⟨randomColorNum_le rq h0 h1, randomDirectionNum_le rq h0 h1⟩,
    fun k => randomColorNum_eq_iff rq k h0,
    fun k => randomDirectionNum_eq_iff rq k h0,
    natToHexFixed 6 (randomColorNum rq), ?_, natToHexFixed_length 6 _,
    natToHexFixed_all_hex 6 _⟩
  unfold randomHexColorAt
  rw [jsPadStart_toHexList 6 _ (by norm_num) (by
    have := randomColorNum_le rq h0 h1
    have h16 : (16 : ℕ) ^ 6 = 16777216 := by norm_num
    omega)]

/-- C2 witness: the amended specification holds at the concrete
Math.random() result 0. -/
theorem c2_random_palette_witness :
    ((0 : ℚ) ≤ 0 ∧ (0 : ℚ) < 1) ∧ randomResolverSpec 0 :=
  ⟨⟨le_refl 0, zero_lt_one⟩, c2_random_palette 0 (le_refl 0) zero_lt_one⟩

/-- The background-value properties asserted by claim C3 for one
compile: a single resolved color is used verbatim, several resolved
colors produce a linear-gradient over the resolved direction with the
comma-joined colors in order (first color first), and the compiled CSS
text embeds the background value. -/
def backgroundSpecAt (rand : Nat → ℚ) (isDark : Bool) (cfg : ThemeConfig) : Prop :=
  (∀ c, resolvedColors rand cfg = [c]
      → backgroundValue (resolvedColors rand cfg) (resolvedDirection rand cfg) = c)
  ∧ (∀ c cs, resolvedColors rand cfg = c :: cs → cs ≠ []
      → backgroundValue (resolvedColors rand cfg) (resolvedDirection rand cfg)
          = "linear-gradient(" ++ resolvedDirection rand cfg ++ ", "
            ++ c ++ ", " ++ joinSep ", " cs ++ ")")
  ∧ strContains (generateThemeCSS rand isDark cfg)
      ("--custom-theme-background: "
        ++ backgroundValue (resolvedColors rand cfg) (resolvedDirection rand cfg)
        ++ " !important;")

/-- C3: for every compile with a non-empty resolved color list, the
background value is the single color itself when the list has exactly
one color, and otherwise a linear-gradient expression over the resolved
direction and the comma-joined color list in the given order (the first
color is the first gradient stop); the compiled CSS embeds it. -/
theorem c3_background_value (rand : Nat → ℚ) (isDark : Bool) (cfg : ThemeConfig)
    (h : resolvedColors rand cfg ≠ []) :
    backgroundSpecAt rand isDark cfg := by
  refine ⟨?_, ?_, ?_⟩
  · intro c hc
    rw [hc]
    rfl
  · intro c cs hc hcs
    rw [hc]
    unfold backgroundValue
    rcases cs with _ | ⟨c2, cs'⟩
    · exact absurd rfl hcs
    · rw [if_pos (by simp)]
      apply string_eq_of_data
      simp only [joinSep, string_data_append, List.append_assoc]
  · rw [generateThemeCSS_eq rand isDark cfg h]
    exact cssTemplate_contains_bg _ _ _ _ _ _ _

/-- C3 witness: the background specification at a concrete two-color
configuration. -/
theorem c3_background_value_witness :
    resolvedColors (fun _ => 0) ⟨2, ["#213220", "#344e41"], "90deg", false⟩ ≠ []
    ∧ backgroundSpecAt (fun _ => 0) true ⟨2, ["#213220", "#344e41"], "90deg", false⟩ :=
  ⟨by decide, c3_background_value _ _ _ (by decide)⟩

/-- C4: whenever the resolved color list of a configuration is empty,
the theme compiler returns the empty CSS string. -/
theorem c4_empty_colors (rand : Nat → ℚ) (isDark : Bool) (cfg : ThemeConfig)
    (h : resolvedColors rand cfg = []) :
    generateThemeCSS rand isDark cfg = "" := by
  unfold generateThemeCSS
  rw [h]
  rfl

/-- C4 witness: a concrete configuration with an empty stored color
list resolves to no colors and compiles to the empty string. -/
theorem c4_empty_colors_witness :
    resolvedColors (fun _ => 0) ⟨3, [], "45deg", false⟩ = []
    ∧ generateThemeCSS (fun _ => 0) true ⟨3, [], "45deg", false⟩ = "" :=
  ⟨rfl, c4_empty_colors (fun _ => 0) true ⟨3, [], "45deg", false⟩ rfl⟩

/-- C10: with useRandomColors disabled and the host mode fixed, the
theme compiler is deterministic — its output does not depend on the
random stream, so two compilations of the same configuration yield
character-for-character identical CSS text. -/
theorem c10_deterministic (cfg : ThemeConfig) (isDark : Bool) (r1 r2 : Nat → ℚ)
    (h : cfg.useRandomColors = false) :
    generateThemeCSS r1 isDark cfg = generateThemeCSS r2 isDark cfg := by
  unfold generateThemeCSS resolvedColors resolvedDirection
  rw [h]
  simp

/-- C10 witness: two compilations of a concrete non-random
configuration under two different random streams coincide. -/
theorem c10_deterministic_witness :
    (⟨2, ["#213220", "#344e41"], "90deg", false⟩ : ThemeConfig).useRandomColors = false
    ∧ generateThemeCSS (fun _ => 0) true ⟨2, ["#213220", "#344e41"], "90deg", false⟩
        = generateThemeCSS (fun _ => 1 / 2) true ⟨2, ["#213220", "#344e41"], "90deg", false⟩ :=
  ⟨rfl, c10_deterministic ⟨2, ["#213220", "#344e41"], "90deg", false⟩ true
    (fun _ => 0) (fun _ => 1 / 2) rfl⟩

/-- C5: compiling the concrete configuration with colors #213220 and
#344e41 at 90deg under dark host mode embeds a linear-gradient over
exactly those two colors in that order at 90deg, a dark variant equal
to adjustColor "#213220" (-35) (which is "#000f00"), a light variant
equal to adjustColor "#213220" 130 (which is "#a3b4a2"), and the dark
mix amounts 70.4% and 30%; the light-mode compile embeds 15.2% and
40% instead. -/
theorem c5_concrete_compile :
    strContains
        (generateThemeCSS (fun _ => 0) true ⟨2, ["#213220", "#344e41"], "90deg", false⟩)
        ("--custom-theme-background: linear-gradient(90deg, #213220, #344e41) !important;")
    ∧ strContains
        (generateThemeCSS (fun _ => 0) true ⟨2, ["#213220", "#344e41"], "90deg", false⟩)
        ("--custom-theme-base-color-dark: " ++ adjustColor "#213220" (-35) ++ " !important;")
    ∧ adjustColor "#213220" (-35) = "#000f00"
    ∧ strContains
        (generateThemeCSS (fun _ => 0) true ⟨2, ["#213220", "#344e41"], "90deg", false⟩)
        ("--custom-theme-base-color-light: " ++ adjustColor "#213220" 130 ++ " !important;")
    ∧ adjustColor "#213220" 130 = "#a3b4a2"
    ∧ strContains
        (generateThemeCSS (fun _ => 0) true ⟨2, ["#213220", "#344e41"], "90deg", false⟩)
        "--custom-theme-base-color-amount: 70.4%;"
    ∧ strContains
        (generateThemeCSS (fun _ => 0) true ⟨2, ["#213220", "#344e41"], "90deg", false⟩)
        "--custom-theme-text-color-amount: 30%;"
    ∧ strContains
        (generateThemeCSS (fun _ => 0) false ⟨2, ["#213220", "#344e41"], "90deg", false⟩)
        "--custom-theme-base-color-amount: 15.2%;"
    ∧ strContains
        (generateThemeCSS (fun _ => 0) false ⟨2, ["#213220", "#344e41"], "90deg", false⟩)
        "--custom-theme-text-color-amount: 40%;" := by
  have hne : resolvedColors (fun _ => 0) ⟨2, ["#213220", "#344e41"], "90deg", false⟩ ≠ [] := by
    decide
  have hbg : backgroundValue
      (resolvedColors (fun _ => 0) ⟨2, ["#213220", "#344e41"], "90deg", false⟩)
      (resolvedDirection (fun _ => 0) ⟨2, ["#213220", "#344e41"], "90deg", false⟩)
      = "linear-gradient(90deg, #213220, #344e41)" := by decide
  have hmain : (resolvedColors (fun _ => 0)
      ⟨2, ["#213220", "#344e41"], "90deg", false⟩).headD "" = "#213220" := by decide
  have hdark : adjustColor "#213220" (-35) = "#000f00" := by
    rw [show ("#213220" : String) = String.mk ('#' :: "213220".data) from rfl,
      adjustColor_pound]
    decide
  have hlight : adjustColor "#213220" 130 = "#a3b4a2" := by
    rw [show ("#213220" : String) = String.mk ('#' :: "213220".data) from rfl,
      adjustColor_pound]
    decide
  refine ⟨?_, ?_, hdark, ?_, hlight, ?_, ?_, ?_, ?_⟩
  · rw [generateThemeCSS_eq _ _ _ hne, hbg,
      show ("--custom-theme-background: linear-gradient(90deg, #213220, #344e41) !important;"
          : String)
        = "--custom-theme-background: " ++ "linear-gradient(90deg, #213220, #344e41)"
          ++ " !important;" from rfl]
    exact cssTemplate_contains_bg _ _ _ _ _ _ _
  · rw [generateThemeCSS_eq _ _ _ hne, hmain]
    exact cssTemplate_contains_dv _ _ _ _ _ _ _
  · rw [generateThemeCSS_eq _ _ _ hne, hmain]
    exact cssTemplate_contains_lv _ _ _ _ _ _ _
  · rw [generateThemeCSS_eq _ _ _ hne,
      show ("--custom-theme-base-color-amount: 70.4%;" : String)
        = "--custom-theme-base-color-amount: " ++ "70.4" ++ "%;" from rfl]
    exact cssTemplate_contains_ba _ _ _ _ _ _ _
  · rw [generateThemeCSS_eq _ _ _ hne,
      show ("--custom-theme-text-color-amount: 30%;" : String)
        = "--custom-theme-text-color-amount: " ++ "30" ++ "%;" from rfl]
    exact cssTemplate_contains_ta _ _ _ _ _ _ _
  · rw [generateThemeCSS_eq _ _ _ hne,
      show ("--custom-theme-base-color-amount: 15.2%;" : String)
        = "--custom-theme-base-color-amount: " ++ "15.2" ++ "%;" from rfl]
    exact cssTemplate_contains_ba _ _ _ _ _ _ _
  · rw [generateThemeCSS_eq _ _ _ hne,
      show ("--custom-theme-text-color-amount: 40%;" : String)
        = "--custom-theme-text-color-amount: " ++ "40" ++ "%;" from rfl]
    exact cssTemplate_contains_ta _ _ _ _ _ _ _

/-- The sanitizer behaviour asserted by claim C6, for one digit string:
the matching input (the digits followed by "deg") is clamped into
[0, 360]; every input on which the sanitizer does not return the
default decomposes into digits followed by "deg" and is clamped; and
the four concrete examples of the specification hold. -/
def sanitizeSpecAt (ds : List Char) : Prop :=
  sanitizeGradientDirection (String.mk ds ++ "deg")
      = toString (min 360 (max 0 (digitsToNat ds))) ++ "deg"
  ∧ (∀ s : String, sanitizeGradientDirection s ≠ "90deg" →
      ∃ es : List Char, es ≠ [] ∧ (∀ c ∈ es, c.isDigit = true)
        ∧ s = String.mk es ++ "deg"
        ∧ sanitizeGradientDirection s
            = toString (min 360 (max 0 (digitsToNat es))) ++ "deg")
  ∧ sanitizeGradientDirection "45deg" = "45deg"
  ∧ sanitizeGradientDirection "900deg" = "360deg"
  ∧ sanitizeGradientDirection "-5deg" = "90deg"
  ∧ sanitizeGradientDirection "blue" = "90deg"

/-- C6: an input consisting of one or more digits followed by "deg" is
sanitized to its numeric part clamped into [0, 360] followed by "deg";
any input on which the sanitizer leaves the default behind is of that
shape (equivalently, every other input yields the default "90deg"); and
sanitize("45deg") = "45deg", sanitize("900deg") = "360deg",
sanitize("-5deg") = "90deg", sanitize("blue") = "90deg". -/
theorem c6_sanitize (ds : List Char) (hne : ds ≠ [])
    (hdig : ∀ c ∈ ds, c.isDigit = true) :
    sanitizeSpecAt ds := by
  refine ⟨?_, ?_, by decide, by decide, by decide, by decide⟩
  · unfold sanitizeGradientDirection
    rw [matchDeg_of_digits ds hne hdig]
  · intro s hs
    cases hm : matchDegDigits s with
    | none =>
      refine absurd ?_ hs
      unfold sanitizeGradientDirection
      rw [hm]
    | some es =>
      obtain ⟨hne2, hdig2, hse⟩ := matchDeg_some_inv s es hm
      refine ⟨es, hne2, hdig2, hse, ?_⟩
      unfold sanitizeGradientDirection
      rw [hm]

/-- C6 witness: the sanitizer specification at the concrete digit
string "900". -/
theorem c6_sanitize_witness :
    ((['9', '0', '0'] : List Char) ≠ []
        ∧ ∀ c ∈ (['9', '0', '0'] : List Char), c.isDigit = true)
    ∧ sanitizeSpecAt ['9', '0', '0'] :=
  ⟨⟨by decide, by decide⟩, c6_sanitize ['9', '0', '0'] (by decide) (by decide)⟩

/-- The adjustment behaviour asserted by claim C7 at one input: the
output is a six-hex-digit string (with the hash exactly when the input
had one) whose three channels are the input channels shifted by the
amount and clamped into [0, 255]. -/
def adjustSpecAt (h6 : List Char) (a : ℤ) (pound : Bool) (r g b : ℕ) : Prop :=
  ∃ o6 : List Char,
    adjustColor ((if pound then "#" else "") ++ String.mk h6) a
        = (if pound then "#" else "") ++ String.mk o6
    ∧ o6.length = 6
    ∧ (∀ c ∈ o6, isHexChar c = true)
    ∧ hexChannels o6
        = (clampByte ((r : ℤ) + a), clampByte ((g : ℤ) + a), clampByte ((b : ℤ) + a))

/-- C7: for every syntactically valid six-hex-digit color (with or
without a leading hash) and every integer amount, adjustColor adds the
amount to each of the three channels independently, clamps each channel
into [0, 255], and returns a syntactically valid zero-padded
six-hex-digit color, preserving the leading hash exactly when the input
had one. -/
theorem c7_adjust_color (h6 : List Char) (a : ℤ) (pound : Bool) (r g b : ℕ)
    (hlen : h6.length = 6) (hhex : ∀ c ∈ h6, isHexChar c = true)
    (hch : hexChannels h6 = (r, g, b)) :
    adjustSpecAt h6 a pound r g b :=
  adjustColor_spec h6 a pound r g b hlen hhex hch

/-- C7 witness: the adjustment specification at the concrete input
"#213220" with amount -35. -/
theorem c7_adjust_color_witness :
    ("213220".data.length = 6
        ∧ (∀ c ∈ "213220".data, isHexChar c = true)
        ∧ hexChannels "213220".data = (33, 50, 32))
    ∧ adjustSpecAt "213220".data (-35) true 33 50 32 :=
  ⟨⟨by decide, by decide, by decide⟩,
    c7_adjust_color "213220".data (-35) true 33 50 32 (by decide) (by decide) (by decide)⟩

/-- C8: for every syntactically valid six-hex-digit color (with or
without a leading hash), adjusting by zero returns the same color up to
case normalization of the hex digits (the serializer emits lowercase
digits, and the hash is preserved). -/
theorem c8_adjust_zero (s : String) (h : validHexColor s = true) :
    adjustColor s 0 = String.mk (s.data.map Char.toLower) :=
  adjustColor_zero_core s h

/-- C8 witness: adjusting the concrete mixed-case color "#AbC123" by
zero yields its lowercase normalization "#abc123". -/
theorem c8_adjust_zero_witness :
    validHexColor "#AbC123" = true
    ∧ adjustColor "#AbC123" 0 = String.mk ("#AbC123".data.map Char.toLower) :=
  ⟨by decide, c8_adjust_zero "#AbC123" (by decide)⟩

/-- The text-color behaviour asserted by claim C9 at one "#RRGGBB"
input: the result is the near-black token exactly when the luminance
0.299·R + 0.587·G + 0.114·B over the 0-255 channel values exceeds 128,
otherwise the near-white token; and on every input whatsoever the
function returns one of those two tokens only. -/
def textColorSpecAt (d0 d1 d2 d3 d4 d5 : Char) : Prop :=
  getTextColor (String.mk ['#', d0, d1, d2, d3, d4, d5])
      = (if (128 : ℚ)
            < (0.299 : ℚ) * ((parseHexList [d0, d1, d2, d3, d4, d5] >>> 16 : ℕ) : ℚ)
              + (0.587 : ℚ) * (((parseHexList [d0, d1, d2, d3, d4, d5] >>> 8) &&& 255 : ℕ) : ℚ)
              + (0.114 : ℚ) * ((parseHexList [d0, d1, d2, d3, d4, d5] &&& 255 : ℕ) : ℚ)
        then "#000000" else "#ffffff")
  ∧ ∀ s : String, getTextColor s = "#000000" ∨ getTextColor s = "#ffffff"

/-- C9: for every six-hex-digit color with a leading hash, getTextColor
computes the luminance 0.299·R + 0.587·G + 0.114·B over the 0-255
channel values and returns the near-black token "#000000" exactly when
the luminance exceeds 128 and the near-white token "#ffffff" otherwise;
the function is binary-valued on all inputs. -/
theorem c9_text_color (d0 d1 d2 d3 d4 d5 : Char)
    (h : ∀ c ∈ [d0, d1, d2, d3, d4, d5], isHexChar c = true) :
    textColorSpecAt d0 d1 d2 d3 d4 d5 := by
  refine ⟨getTextColor_eq d0 d1 d2 d3 d4 d5 h, ?_⟩
  intro s
  simp only [getTextColor]
  split
  · exact Or.inl rfl
  · exact Or.inr rfl

/-- C9 witness: the text-color specification at the concrete mid-gray
input "#808080". -/
theorem c9_text_color_witness :
    (∀ c ∈ (['8', '0', '8', '0', '8', '0'] : List Char), isHexChar c = true)
    ∧ textColorSpecAt '8' '0' '8' '0' '8' '0' :=
  ⟨by decide, c9_text_color '8' '0' '8' '0' '8' '0' (by decide)⟩
